import Mathlib

/-!
# Verification of the IRL Co-Creation Wizard core (IRL_framework.py)

A shallow embedding of the core logic of `IRL_framework.py`:

* the SQLite-backed feedback store (`add_feedback`, `get_feedback`,
  `delete_feedback`), modelled as a list of rows in rowid (insertion)
  order together with the AUTOINCREMENT counter;
* Python string stripping (`str.strip()`), modelled character-exactly
  over the Python whitespace set relevant here;
* the feedback-collection guard (`collect_feedback`);
* the wizard navigation transitions (the Previous/Next button handlers
  in `wizard_navbar`) over Python integers, modelled as `Int`;
* the login-page session initialisation (`login_page`);
* the taxonomy lookup and section-key derivation of the Child
  Attributes step (`step_child_attributes`), together with the full
  `CHILD_ATTRIBUTES_DICT` reference data.

SQL semantics used by the embedding: `INSERT` appends a row with the
next AUTOINCREMENT id and the store-assigned timestamp; `SELECT ... WHERE
... ORDER BY created_at ASC` filters the table (scanned in rowid order)
and stably sorts it by `created_at`; `DELETE ... WHERE id = ? AND
user_id = ?` removes every matching row and `rowcount` counts them.
-/

namespace IRL

/-! ## Python string primitives -/

/-- The whitespace characters recognised by the Python string strip
method (ASCII part; the source only ever feeds ASCII form input). -/
def pyIsSpace (c : Char) : Bool :=
  c = ' ' || c = '\t' || c = '\n' || c = '\r' || c = '\x0b' || c = '\x0c'

/-- Python `s.strip()`: remove leading and trailing whitespace. -/
def pyStrip (s : String) : String :=
  String.mk ((((s.data.dropWhile pyIsSpace).reverse).dropWhile pyIsSpace).reverse)

/-! ## Global configuration (source lines 26-54) -/

def PASSCODE : String := "DECODE"

/-- Wizard steps in order. -/
def WIZARD_STEPS : List String :=
  ["Introduction", "Method Categories", "Parent Attributes", "Child Attributes", "Final Comments"]

/-- Method categories (5 main ones). -/
def METHOD_CATEGORIES : List String :=
  ["Simulations", "Modeling", "Characterization", "Testing", "Assessment"]

/-- Parent attributes (including Utility as a full dimension). -/
def PARENT_ATTRIBUTES : List String :=
  ["Maturity", "Resource Requirements", "Interoperability", "Integration Complexity", "Utility"]

/-- One child attribute: (name, description, scoring scale). -/
abbrev ChildAttr := String × String × String

/-- Full dictionary of child attributes for each category & parent attribute
(source lines 57-328), as a nested association list in source order. -/
def CHILD_ATTRIBUTES_DICT : List (String × List (String × List ChildAttr)) :=
  [ ("Simulations",
      [ ("Maturity",
          [ ("Validation Level",
             "How thoroughly the simulation method is validated against experimental or benchmark data.",
             "1=No validation; 5=Some; 9=Extensively validated"),
            ("Numerical Stability",
             "Frequency of solver crashes, convergence issues, or non-physical results.",
             "1=Frequent instabilities; 5=Occasional issues; 9=Very stable"),
            ("Method Standardization",
             "Degree of standardized protocols, best practices, and accepted formats.",
             "1=Ad-hoc; 5=Some guidelines; 9=Fully standardized")]),
        ("Resource Requirements",
          [ ("Licensing Costs",
             "Financial cost of simulation software licenses.",
             "1=Very expensive; 5=Moderate; 9=Open-source/free"),
            ("Computational Demand",
             "CPU/GPU hours, memory requirements, runtime.",
             "1=Requires HPC/very long runs; 5=Overnight; 9=Minimal footprint"),
            ("Training Load",
             "Expertise and time required to learn and operate the simulation method.",
             "1=Highly specialized; 5=Graduate-level skill; 9=Intuitive/minimal training")]),
        ("Interoperability",
          [ ("Data Format Compatibility",
             "Ability to import/export data in standard formats (e.g., EC-lab, netCDF).",
             "1=Proprietary only; 5=Partial; 9=Fully open"),
            ("Platform Independence",
             "Ability to run on various OS/HPC environments.",
             "1=Single OS; 5=Multi-OS with tweaks; 9=Fully cross-platform"),
            ("API/Scripting Availability",
             "Availability of APIs or scripting interfaces for customization.",
             "1=No API; 5=Limited; 9=Extensive APIs")]),
        ("Integration Complexity",
          [ ("Pre-processing Time",
             "Time/effort to set up geometry, boundary conditions, and meshing.",
             "1=Days; 5=Hours; 9=Automated in minutes"),
            ("Post-processing Tools",
             "Quality and user-friendliness of visualization and analysis tools.",
             "1=Complex external steps; 5=Basic tools; 9=Advanced & automated"),
            ("Parameter Sensitivity & UQ Modules",
             "Ease of performing uncertainty quantification and parameter sweeps.",
             "1=Manual/tedious; 5=Some scripting; 9=Fully integrated")]),
        ("Utility",
          [ ("Predictive Value",
             "How beneficial are the simulation outputs for hydrogen R&D or industrial workflows?",
             "1=Minimal impact; 5=Moderate; 9=Transformative"),
            ("Industry Alignment",
             "Relevance to IEC/ISO, DoE references, HPC usage optimizations.",
             "1=Low relevance; 5=Medium; 9=Fully aligned & strategic")])]),
    ("Modeling",
      [ ("Maturity",
          [ ("Theoretical Foundation Robustness",
             "How well-accepted the theoretical underpinnings are.",
             "1=Speculative; 5=Moderately accepted; 9=Widely accepted"),
            ("Code Base Stability",
             "Frequency and magnitude of model code revisions.",
             "1=Constant major changes; 5=Occasional updates; 9=Very stable"),
            ("Parameter Validation",
             "Level of parameter fitting and validation against data.",
             "1=Poorly validated; 5=Some; 9=Thoroughly validated")]),
        ("Resource Requirements",
          [ ("Software Cost",
             "Licensing or acquisition cost of modeling tools.",
             "1=Very expensive; 5=Moderate/partial OS; 9=Open-source/free"),
            ("Computational Efficiency",
             "Runtime and resource usage for solving or parameter estimation.",
             "1=Days/run; 5=Hours/run; 9=Minutes or less"),
            ("Maintenance Overhead",
             "Effort to keep the model updated and functional.",
             "1=Frequent recalibration; 5=Occasional updates; 9=Low maintenance")]),
        ("Interoperability",
          [ ("Input Data Format Compatibility",
             "Ability to use standard data sets or link with experimental databases.",
             "1=Proprietary only; 5=Some standard imports; 9=Fully flexible"),
            ("Model Coupling Capability",
             "Ease of linking this model to other models.",
             "1=Standalone; 5=Partial bridging; 9=Fully modular"),
            ("Documentation & Standards",
             "Quality of documentation and adherence to modeling standards.",
             "1=Poor docs; 5=Basic; 9=Comprehensive/standardized")]),
        ("Integration Complexity",
          [ ("Implementation Complexity",
             "Difficulty integrating the model into existing workflows.",
             "1=Very difficult; 5=Moderate; 9=Plug-and-play"),
            ("Sensitivity Analysis Tools",
             "Built-in parameter sensitivity and uncertainty routines.",
             "1=None; 5=Limited; 9=Robust integrated features"),
            ("Scalability",
             "Ability to scale from component-level to system-level modeling.",
             "1=Restricted; 5=Some scaling; 9=Easily scalable")]),
        ("Utility",
          [ ("Predictive Accuracy vs. Project Goals",
             "Does the model significantly improve decision-making or project KPIs?",
             "1=Marginal; 5=Useful; 9=Highly impactful"),
            ("Adoption Potential",
             "Likelihood that others in the consortium or industry adopt it once integrated.",
             "1=Unlikely; 5=Moderate; 9=Very likely")])]),
    ("Characterization",
      [ ("Maturity",
          [ ("Resolution & Sensitivity",
             "Smallest distinguishable feature or analyte quantity.",
             "1=Low res; 5=Moderate; 9=High-resolution"),
            ("Reproducibility",
             "Consistency of results under identical conditions.",
             "1=Highly variable; 5=Some variability; 9=Highly reproducible"),
            ("Standard Protocol Acceptance",
             "Adoption of widely recognized characterization protocols.",
             "1=None; 5=Some guidelines; 9=Industry-level standards")]),
        ("Resource Requirements",
          [ ("Equipment Investment",
             "Capital cost of required instrumentation.",
             "1=>€200k; 5=€50k–200k; 9=<€10k"),
            ("Consumable Usage",
             "Cost/frequency of consumables per measurement.",
             "1=High cost; 5=Moderate; 9=Minimal"),
            ("Labor Intensity",
             "Personnel time required per sample.",
             "1=Hours; 5=~1 hour; 9=Minutes")]),
        ("Interoperability",
          [ ("Hardware Compatibility",
             "Ability to fit into standard sample holders or test cells.",
             "1=Custom only; 5=Adapter needed; 9=Standard holders"),
            ("Data Format Standardization",
             "Output in known, open data formats.",
             "1=Proprietary only; 5=Limited; 9=Open formats"),
            ("Calibration Transferability",
             "Ease of applying same calibration across instruments.",
             "1=Unique per setup; 5=Transferable w/adjustments; 9=Easily transferable")]),
        ("Integration Complexity",
          [ ("Setup Time",
             "Time required to prepare and align instrument/sample.",
             "1=Hours; 5=Tens of minutes; 9=Minutes"),
            ("Data Processing Complexity",
             "Difficulty converting raw data into metrics.",
             "1=Complex multi-step; 5=Some manual steps; 9=Fully automated"),
            ("Detection Limit",
             "Lowest detectable quantity.",
             "1=High limit; 5=Moderate; 9=Very low limit")]),
        ("Utility",
          [ ("Impact on Project KPIs",
             "Degree to which characterization results drive design improvements.",
             "1=Marginal; 5=Moderate; 9=Key enabler"),
            ("Standardization Value",
             "Adds crucial standardized data for collaborative projects or regulatory approvals.",
             "1=Low; 5=Moderate; 9=High synergy")])]),
    ("Testing",
      [ ("Maturity",
          [ ("Test Protocol Stability",
             "Frequency of major changes to test procedures.",
             "1=Evolving; 5=Mostly stable; 9=Fully standardized"),
            ("Reliability Under Varied Conditions",
             "Consistency of results across different operating conditions.",
             "1=Wide variance; 5=Some; 9=Robust"),
            ("Reference to Industry Standards",
             "Alignment with recognized test standards.",
             "1=None; 5=Partial; 9=Fully aligned")]),
        ("Resource Requirements",
          [ ("Equipment Depreciation Rate",
             "Annual loss in equipment value.",
             "1=High; 5=Moderate; 9=Low depreciation"),
            ("Test Duration per Sample",
             "Length of each test cycle.",
             "1=Days; 5=Hours; 9=Minutes"),
            ("Energy Consumption per Cycle",
             "Energy used per test run.",
             "1=Very high; 5=Moderate; 9=Very low")]),
        ("Interoperability",
          [ ("Universality of Fixtures",
             "Ability to use standard fixtures for different sample types.",
             "1=Specialized; 5=Adapters needed; 9=Universal"),
            ("Software Integration Level",
             "Ease of linking test control/data acquisition with lab software.",
             "1=Manual; 5=Partial integration; 9=Fully automated"),
            ("Reporting Standardization",
             "Ability to produce results in standard reporting formats.",
             "1=Proprietary; 5=Limited; 9=Fully compliant")]),
        ("Integration Complexity",
          [ ("Setup Time",
             "Time to install and calibrate the test sample.",
             "1=Hours; 5=Tens of minutes; 9=Minutes"),
            ("Range of Test Conditions",
             "Diversity of conditions achievable (e.g., temperature, pressure).",
             "1=Very narrow; 5=Moderate; 9=Wide range"),
            ("Fault Diagnosis Tools",
             "Ability to detect/diagnose anomalies in real-time.",
             "1=None; 5=Basic alarms; 9=Advanced diagnostics")]),
        ("Utility",
          [ ("Relevance to Performance Validation",
             "Ensures direct feedback on device or material performance for project goals.",
             "1=Low; 5=Medium; 9=High synergy"),
            ("Data Quality for Scale-up",
             "Usefulness of test data for scaling to pilot or commercial applications.",
             "1=Marginal; 5=Moderate; 9=Essential")])]),
    ("Assessment",
      [ ("Maturity",
          [ ("Methodological Consensus",
             "Level of standardization and consensus.",
             "1=None; 5=Some guidance; 9=Fully standardized"),
            ("Data Quality Requirements",
             "Clarity and standardization of data quality metrics.",
             "1=Poorly defined; 5=Some guidelines; 9=Well-defined"),
            ("Update Frequency",
             "Frequency of major methodological changes.",
             "1=Frequent; 5=Occasional; 9=Very stable")]),
        ("Resource Requirements",
          [ ("Software/Database Licensing",
             "Cost of analysis tools and databases.",
             "1=Very expensive; 5=Moderate; 9=Free/open-source"),
            ("Data Acquisition Costs",
             "Effort/expense to gather input data.",
             "1=Very difficult; 5=Moderate; 9=Easily accessible"),
            ("Analyst Training",
             "Complexity of training required.",
             "1=Specialized experts; 5=Skilled professionals; 9=Minimal training")]),
        ("Interoperability",
          [ ("Compatibility with Other Frameworks",
             "Integration with other sustainability/economic frameworks.",
             "1=Very specialized; 5=Limited; 9=Broad compatibility"),
            ("Database Integration",
             "Ease of importing standard LCI or other datasets.",
             "1=None; 5=Some parsing; 9=Direct compatibility"),
            ("Reporting Standards",
             "Compliance with recognized reporting frameworks (e.g., ISO).",
             "1=Proprietary; 5=Partial; 9=Fully compliant")]),
        ("Integration Complexity",
          [ ("Time to Results",
             "Speed from input to final assessment.",
             "1=Weeks; 5=Days; 9=Hours or less"),
            ("Sensitivity/Scenario Analysis Capability",
             "Built-in scenario/uncertainty tools.",
             "1=None; 5=Manual; 9=Fully integrated"),
            ("Scalability Across Systems",
             "Suitability from component-level to full supply chain.",
             "1=Component-only; 5=Some scaling; 9=Easily scalable")]),
        ("Utility",
          [ ("Decision-Making Impact",
             "Does the assessment clearly guide strategic decisions or design changes?",
             "1=Minimal; 5=Some; 9=High impact"),
            ("Regulatory/Compliance Value",
             "Helps meet regulations, certifications, or official guidelines.",
             "1=Little relevance; 5=Useful; 9=Essential")])])]

/-! ## The feedback store (source lines 334-418)

The SQLite `feedback` table is modelled as a list of rows in rowid
(insertion) order, plus the AUTOINCREMENT counter.  `created_at` is the
store-assigned `CURRENT_TIMESTAMP`, modelled as a `Nat` supplied at
insert time. -/

/-- One row of the `feedback` table. -/
structure FeedbackRow where
  id : Nat
  user_id : String
  user_name : String
  step : String
  sect : String
  feedback : String
  created_at : Nat
deriving Repr, DecidableEq

/-- The `feedback` table: rows in rowid order plus the AUTOINCREMENT counter. -/
structure FeedbackDB where
  rows : List FeedbackRow
  next_id : Nat
deriving Repr, DecidableEq

/-- Source `init_db`: fresh empty table (ids start at 1, as SQLite AUTOINCREMENT does). -/
def init_db : FeedbackDB := { rows := [], next_id := 1 }

/-- Source `add_feedback(user_id, user_name, step, section, feedback)`: INSERT one
row; the store assigns the id and timestamp and the body is stored as
`feedback.strip()`. -/
def add_feedback (db : FeedbackDB) (user_id user_name step sect feedback : String)
    (now : Nat) : FeedbackDB :=
  { rows := db.rows ++
      [{ id := db.next_id, user_id := user_id, user_name := user_name,
         step := step, sect := sect, feedback := pyStrip feedback, created_at := now }],
    next_id := db.next_id + 1 }

/-- Stable insertion of a row into a list sorted by `created_at`: the row
goes in front of the first element whose timestamp is not strictly
smaller, so rows already present with an equal timestamp stay in front
only if they came earlier in the scan. -/
def insertByCreatedAt (r : FeedbackRow) : List FeedbackRow → List FeedbackRow
  | [] => [r]
  | x :: xs =>
    if x.created_at < r.created_at then x :: insertByCreatedAt r xs
    else r :: x :: xs

/-- SQL `ORDER BY created_at ASC` over rows scanned in rowid order: a
stable sort by `created_at`. -/
def orderByCreatedAt : List FeedbackRow → List FeedbackRow
  | [] => []
  | x :: xs => insertByCreatedAt x (orderByCreatedAt xs)

/-- The Python row-to-dict conversion in `get_feedback`: `row[2] if row[2]
else "Anonymous"` substitutes a falsy (empty) `user_name`. -/
def presentRow (r : FeedbackRow) : FeedbackRow :=
  { r with user_name := if r.user_name = "" then "Anonymous" else r.user_name }

/-- Source `get_feedback(step, section=None)`: filter by step, and by section only
when `section` is truthy in Python (`if section:`), i.e. not `None` and
not the empty string; order by `created_at` ascending; convert rows. -/
def get_feedback (db : FeedbackDB) (step : String) (sect : Option String) :
    List FeedbackRow :=
  let rows :=
    match sect with
    | some s =>
      if s = "" then db.rows.filter (fun r => r.step = step)
      else db.rows.filter (fun r => r.step = step ∧ r.sect = s)
    | none => db.rows.filter (fun r => r.step = step)
  (orderByCreatedAt rows).map presentRow

/-- Source `delete_feedback(record_id, user_id)`: DELETE every row matching both
the id and the user token, and report `rowcount > 0`. -/
def delete_feedback (db : FeedbackDB) (record_id : Nat) (user_id : String) :
    FeedbackDB × Bool :=
  let remaining := db.rows.filter (fun r => ¬(r.id = record_id ∧ r.user_id = user_id))
  ({ db with rows := remaining }, remaining.length < db.rows.length)

/-- Source `collect_feedback(step, section_label)`: reject a blank body before the
store is touched, otherwise insert via `add_feedback`. -/
def collect_feedback (db : FeedbackDB) (user_id user_name step section_label
    feedback_text : String) (now : Nat) : FeedbackDB :=
  if pyStrip feedback_text = "" then db
  else add_feedback db user_id user_name step section_label feedback_text now

/-! ## Wizard navigation (source lines 685-706) -/

/-- The Previous handler in `wizard_navbar`:
`st.session_state["current_step"] = max(current_step - 1, 0)`. -/
def wizard_previous (current_step : Int) : Int :=
  max (current_step - 1) 0

/-- The Next handler in `wizard_navbar`:
`st.session_state["current_step"] = min(current_step + 1, total_steps - 1)`
with `total_steps = len(WIZARD_STEPS)`. -/
def wizard_next (current_step : Int) : Int :=
  min (current_step + 1) ((WIZARD_STEPS.length : Int) - 1)

/-! ## Login page (source lines 730-747) -/

/-- The per-session state touched by `login_page`. -/
structure SessionState where
  logged_in : Bool
  current_step : Int
  user_id : String
  user_name : String
  refresh_flag : Bool
deriving Repr, DecidableEq

/-- Source `login_page`: on the correct passcode, mark the session logged in at
step 0 with a fresh user id (the `uuid4()` value is an input here) and
the normalised display name
(`user_name.strip() if user_name.strip() else "Anonymous"`). -/
def login_page (s : SessionState) (passcode user_name new_uuid : String) :
    SessionState :=
  if passcode = PASSCODE then
    { s with
      logged_in := true
      current_step := 0
      user_id := new_uuid
      user_name := if pyStrip user_name = "" then "Anonymous" else pyStrip user_name
      refresh_flag := !s.refresh_flag }
  else s

/-! ## Child Attributes step (source lines 578-649) -/

/-- Association-list lookup standing for Python dict indexing. -/
def dictFind {α : Type} (key : String) (d : List (String × α)) : Option α :=
  (d.find? (fun kv => kv.1 = key)).map (fun kv => kv.2)

/-- The `child_attrs` value in `step_child_attributes`: `CHILD_ATTRIBUTES_DICT[cat][attr]`
when both keys are present, else the empty list. -/
def childAttrsFor (cat_choice attr_choice : String) : List ChildAttr :=
  match dictFind cat_choice CHILD_ATTRIBUTES_DICT with
  | some byAttr =>
    match dictFind attr_choice byAttr with
    | some l => l
    | none => []
  | none => []

/-- The child-attribute selection logic of `step_child_attributes`: when no
child attributes exist for the pair the choice degenerates to `"General"`
with empty description and scoring; otherwise the pick of the user is
looked up for its description and scoring text.  Returns
`(child_feat_choice, child_description, child_scoring)`. -/
def step_child_selection (cat_choice attr_choice user_pick : String) :
    String × String × String :=
  let child_attrs := childAttrsFor cat_choice attr_choice
  if child_attrs.isEmpty then ("General", "", "")
  else
    if user_pick ≠ "General" then
      match child_attrs.find? (fun f => f.1 = user_pick) with
      | some f => (user_pick, f.2.1, f.2.2)
      | none => (user_pick, "", "")
    else ("General", "", "")

/-- The f-string building `section_label` in `step_child_attributes` from
`cat_choice`, `attr_choice` and `child_feat_choice`, joined by the
delimiter `" | "`. -/
def child_section_label (cat_choice attr_choice child_feat_choice : String) : String :=
  cat_choice ++ " | " ++ attr_choice ++ " | " ++ child_feat_choice

/-- The options offered by the Child-Attribute selectbox for a pair:
`["General"] + [f[0] for f in child_attrs]`. -/
def child_feat_options (cat_choice attr_choice : String) : List String :=
  "General" :: (childAttrsFor cat_choice attr_choice).map (fun f => f.1)

/-- Every taxonomy selection the Child Attributes step can produce:
a category from the selectbox, a parent attribute from the selectbox,
and a child option offered for that pair. -/
def validChildTriples : List (String × String × String) :=
  METHOD_CATEGORIES.flatMap (fun c =>
    PARENT_ATTRIBUTES.flatMap (fun a =>
      (child_feat_options c a).map (fun ch => (c, a, ch))))

/-- The section key a taxonomy selection derives. -/
def tripleKey (t : String × String × String) : String :=
  child_section_label t.1 t.2.1 t.2.2

/-! ## Spec-side orderings used to state the store properties -/

/-- Insertion (rowid) order between rows. -/
abbrev idOrder (a b : FeedbackRow) : Prop := a.id < b.id

/-- Chronological order with ties broken by insertion (id) order. -/
abbrev chronOrder (a b : FeedbackRow) : Prop :=
  a.created_at < b.created_at ∨ (a.created_at = b.created_at ∧ a.id < b.id)

/-! ## Helper lemmas -/

theorem pyStrip_eq_empty_iff (s : String) :
    pyStrip s = "" ↔ ∀ c ∈ s.data, pyIsSpace c = true := by
  unfold pyStrip
  constructor
  · intro h
    have hdata : (((s.data.dropWhile pyIsSpace).reverse).dropWhile pyIsSpace).reverse = [] := by
      simpa using congrArg String.data h
    have h2 : ((s.data.dropWhile pyIsSpace).reverse).dropWhile pyIsSpace = [] :=
      List.reverse_eq_nil_iff.mp hdata
    have h4 : ∀ c ∈ s.data.dropWhile pyIsSpace, pyIsSpace c = true := by
      intro c hc
      exact List.dropWhile_eq_nil_iff.mp h2 c (List.mem_reverse.mpr hc)
    intro c hc
    rw [← List.takeWhile_append_dropWhile pyIsSpace s.data] at hc
    rcases List.mem_append.mp hc with h5 | h5
    · exact List.mem_takeWhile_imp h5
    · exact h4 c h5
  · intro h
    have h1 : s.data.dropWhile pyIsSpace = [] := List.dropWhile_eq_nil_iff.mpr h
    simp [h1]

theorem length_filter_lt_iff {α : Type} (p : α → Bool) (l : List α) :
    (l.filter p).length < l.length ↔ ¬ ∀ a ∈ l, p a = true := by
  constructor
  · intro h hall
    exact absurd (List.filter_length_eq_length.mpr hall) (Nat.ne_of_lt h)
  · intro h
    rcases Nat.lt_or_ge (l.filter p).length l.length with hlt | hge
    · exact hlt
    · exact absurd
        (List.filter_length_eq_length.mp
          (Nat.le_antisymm (List.length_filter_le p l) hge)) h

theorem insertByCreatedAt_perm (r : FeedbackRow) (l : List FeedbackRow) :
    (insertByCreatedAt r l).Perm (r :: l) := by
  induction l with
  | nil => exact List.Perm.refl _
  | cons x xs ih =>
    by_cases h : x.created_at < r.created_at
    · rw [insertByCreatedAt, if_pos h]
      exact (ih.cons x).trans (List.Perm.swap r x xs)
    · rw [insertByCreatedAt, if_neg h]

theorem orderByCreatedAt_perm (l : List FeedbackRow) :
    (orderByCreatedAt l).Perm l := by
  induction l with
  | nil => exact List.Perm.refl _
  | cons x xs ih =>
    exact (insertByCreatedAt_perm x (orderByCreatedAt xs)).trans (ih.cons x)

theorem insertByCreatedAt_pairwise (r : FeedbackRow) (l : List FeedbackRow)
    (hl : l.Pairwise chronOrder) (hr : ∀ x ∈ l, r.id < x.id) :
    (insertByCreatedAt r l).Pairwise chronOrder := by
  induction l with
  | nil => simp [insertByCreatedAt]
  | cons x xs ih =>
    rcases List.pairwise_cons.mp hl with ⟨hx, hxs⟩
    by_cases h : x.created_at < r.created_at
    · rw [insertByCreatedAt, if_pos h]
      refine List.pairwise_cons.mpr
        ⟨?_, ih hxs (fun y hy => hr y (List.mem_cons_of_mem x hy))⟩
      intro y hy
      rcases List.mem_cons.mp ((insertByCreatedAt_perm r xs).mem_iff.mp hy) with hyr | hyxs
      · exact hyr ▸ Or.inl h
      · exact hx y hyxs
    · rw [insertByCreatedAt, if_neg h]
      have hrk : r.created_at ≤ x.created_at := Nat.le_of_not_lt h
      refine List.pairwise_cons.mpr ⟨?_, hl⟩
      intro y hy
      rcases List.mem_cons.mp hy with rfl | hyxs
      · rcases Nat.lt_or_eq_of_le hrk with hlt | heq
        · exact Or.inl hlt
        · exact Or.inr ⟨heq, hr y (List.mem_cons_self y xs)⟩
      · have hxy := hx y hyxs
        have hxk : x.created_at ≤ y.created_at := by
          rcases hxy with h1 | ⟨h1, _⟩
          · exact Nat.le_of_lt h1
          · exact Nat.le_of_eq h1
        rcases Nat.lt_or_eq_of_le (Nat.le_trans hrk hxk) with hlt | heq
        · exact Or.inl hlt
        · exact Or.inr ⟨heq, hr y (List.mem_cons_of_mem x hyxs)⟩

theorem orderByCreatedAt_pairwise (l : List FeedbackRow) (h : l.Pairwise idOrder) :
    (orderByCreatedAt l).Pairwise chronOrder := by
  induction l with
  | nil => simp [orderByCreatedAt]
  | cons x xs ih =>
    rcases List.pairwise_cons.mp h with ⟨hx, hxs⟩
    exact insertByCreatedAt_pairwise x (orderByCreatedAt xs) (ih hxs)
      (fun y hy => hx y ((orderByCreatedAt_perm xs).mem_iff.mp hy))

/-- The rows already in the store stay pairwise id-ordered through an
insert, because the AUTOINCREMENT counter dominates every stored id. -/
theorem add_feedback_preserves_idOrder (db : FeedbackDB)
    (user_id user_name step sect feedback : String) (now : Nat)
    (hord : db.rows.Pairwise idOrder) (hlt : ∀ r ∈ db.rows, r.id < db.next_id) :
    (add_feedback db user_id user_name step sect feedback now).rows.Pairwise idOrder ∧
    (∀ r ∈ (add_feedback db user_id user_name step sect feedback now).rows,
      r.id < (add_feedback db user_id user_name step sect feedback now).next_id) := by
  constructor
  · refine List.pairwise_append.mpr ⟨hord, List.pairwise_singleton _ _, ?_⟩
    intro a ha b hb
    rw [List.mem_singleton] at hb
    subst hb
    exact hlt a ha
  · intro r hr
    rcases List.mem_append.mp hr with hr | hr
    · exact Nat.lt_succ_of_lt (hlt r hr)
    · rw [List.mem_singleton] at hr
      subst hr
      exact Nat.lt_succ_self _

/-! ## Sample data for the concrete witnesses -/

def rowA : FeedbackRow :=
  { id := 1, user_id := "alice", user_name := "Alice", step := "Introduction",
    sect := "GeneralIntro", feedback := "Looks good", created_at := 10 }

def rowB : FeedbackRow :=
  { id := 2, user_id := "bob", user_name := "", step := "Introduction",
    sect := "GeneralIntro", feedback := "Needs work", created_at := 10 }

def rowC : FeedbackRow :=
  { id := 3, user_id := "carol", user_name := "Carol", step := "Final Comments",
    sect := "OverallFinal", feedback := "Done", created_at := 5 }

def sampleDB : FeedbackDB := { rows := [rowA, rowB, rowC], next_id := 4 }

def sampleSession : SessionState :=
  { logged_in := false, current_step := 0, user_id := "", user_name := "",
    refresh_flag := false }

/-! ## Claim theorems -/

/-- C1: `delete_feedback(id, user_id)` returns true iff a record with that
id existed in the store with that stored user token; when no such record
exists (wrong id, wrong user, or already deleted) it returns false and
leaves the store unchanged. -/
theorem delete_feedback_ownership (db : FeedbackDB) (record_id : Nat) (user_id : String) :
    ((delete_feedback db record_id user_id).2 = true ↔
      ∃ r ∈ db.rows, r.id = record_id ∧ r.user_id = user_id) ∧
    ((∀ r ∈ db.rows, ¬(r.id = record_id ∧ r.user_id = user_id)) →
      (delete_feedback db record_id user_id).1 = db ∧
      (delete_feedback db record_id user_id).2 = false) := by
  constructor
  · rw [delete_feedback]
    rw [decide_eq_true_iff]
    rw [length_filter_lt_iff]
    constructor
    · intro h
      push_neg at h
      rcases h with ⟨r, hmem, hpred⟩
      exact ⟨r, hmem, by simpa using hpred⟩
    · rintro ⟨r, hmem, hid, huid⟩ hall
      have := hall r hmem
      rw [decide_eq_true_iff] at this
      exact this ⟨hid, huid⟩
  · intro h
    have hall : ∀ r ∈ db.rows,
        (fun r : FeedbackRow => decide ¬(r.id = record_id ∧ r.user_id = user_id)) r = true := by
      intro r hr
      exact decide_eq_true_iff.mpr (h r hr)
    constructor
    · show { db with rows := _ } = db
      rw [List.filter_eq_self.mpr hall]
    · show decide _ = false
      rw [decide_eq_false_iff_not]
      rw [List.filter_eq_self.mpr hall]
      exact Nat.lt_irrefl _

/-- Witness for C1 on a concrete store: deleting record 1 with the wrong
token is a no-op reported false, and deleting it with the stored token
reports true. -/
theorem delete_feedback_ownership_witness :
    (delete_feedback sampleDB 1 "bob").1 = sampleDB ∧
    (delete_feedback sampleDB 1 "bob").2 = false ∧
    (delete_feedback sampleDB 1 "alice").2 = true := by
  refine ⟨?_, ?_, ?_⟩
  · exact ((delete_feedback_ownership sampleDB 1 "bob").2 (by decide)).1
  · exact ((delete_feedback_ownership sampleDB 1 "bob").2 (by decide)).2
  · exact (delete_feedback_ownership sampleDB 1 "alice").1.mpr
      ⟨rowA, by decide, by decide, by decide⟩

/-- C4: `collect_feedback` rejects a body that strips to nothing before the
store is reached (the store is unchanged), and persists exactly one new
stripped record otherwise. -/
theorem collect_feedback_blank_guard (db : FeedbackDB)
    (user_id user_name step section_label feedback_text : String) (now : Nat) :
    ((∀ c ∈ feedback_text.data, pyIsSpace c = true) →
      collect_feedback db user_id user_name step section_label feedback_text now = db) ∧
    ((¬ ∀ c ∈ feedback_text.data, pyIsSpace c = true) →
      (collect_feedback db user_id user_name step section_label feedback_text now).rows =
        db.rows ++
          [{ id := db.next_id, user_id := user_id, user_name := user_name, step := step,
             sect := section_label, feedback := pyStrip feedback_text, created_at := now }] ∧
      (collect_feedback db user_id user_name step section_label feedback_text now).rows.length =
        db.rows.length + 1) := by
  constructor
  · intro h
    have he : pyStrip feedback_text = "" := (pyStrip_eq_empty_iff _).mpr h
    simp [collect_feedback, he]
  · intro h
    have hne : pyStrip feedback_text ≠ "" := fun hc => h ((pyStrip_eq_empty_iff _).mp hc)
    simp [collect_feedback, hne, add_feedback]

/-- Witness for C4: a tab-and-space body leaves the concrete store
untouched; a body with content grows it by one row. -/
theorem collect_feedback_blank_guard_witness :
    collect_feedback sampleDB "u1" "Uma" "Introduction" "GeneralIntro" " \t " 11 = sampleDB ∧
    (collect_feedback sampleDB "u1" "Uma" "Introduction" "GeneralIntro" " ok " 11).rows.length =
      sampleDB.rows.length + 1 := by
  constructor
  · exact (collect_feedback_blank_guard sampleDB "u1" "Uma" "Introduction" "GeneralIntro"
      " \t " 11).1 (by decide)
  · exact ((collect_feedback_blank_guard sampleDB "u1" "Uma" "Introduction" "GeneralIntro"
      " ok " 11).2 (by decide)).2

/-- C10: `add_feedback` validates nothing itself: every call appends exactly
one record whose stored body is the input stripped of surrounding
whitespace, so a whitespace-only body is stored with an empty body. -/
theorem add_feedback_strips_without_validation (db : FeedbackDB)
    (user_id user_name step sect body : String) (now : Nat) :
    (add_feedback db user_id user_name step sect body now).rows =
      db.rows ++
        [{ id := db.next_id, user_id := user_id, user_name := user_name, step := step,
           sect := sect, feedback := pyStrip body, created_at := now }] ∧
    (add_feedback db user_id user_name step sect body now).rows.length = db.rows.length + 1 ∧
    ((∀ c ∈ body.data, pyIsSpace c = true) →
      ∃ r, (add_feedback db user_id user_name step sect body now).rows = db.rows ++ [r] ∧
        r.feedback = "") := by
  refine ⟨rfl, by simp [add_feedback], ?_⟩
  intro h
  exact ⟨_, rfl, (pyStrip_eq_empty_iff _).mpr h⟩

/-- Witness for C10: a direct call with a whitespace-only body still
appends a row, and that row has an empty body. -/
theorem add_feedback_strips_without_validation_witness :
    (add_feedback sampleDB "u1" "Uma" "Introduction" "GeneralIntro" " \t " 11).rows.length =
      sampleDB.rows.length + 1 ∧
    ∃ r, (add_feedback sampleDB "u1" "Uma" "Introduction" "GeneralIntro" " \t " 11).rows =
      sampleDB.rows ++ [r] ∧ r.feedback = "" := by
  constructor
  · exact (add_feedback_strips_without_validation sampleDB "u1" "Uma" "Introduction"
      "GeneralIntro" " \t " 11).1.symm ▸
      (add_feedback_strips_without_validation sampleDB "u1" "Uma" "Introduction"
        "GeneralIntro" " \t " 11).2.1
  · exact (add_feedback_strips_without_validation sampleDB "u1" "Uma" "Introduction"
      "GeneralIntro" " \t " 11).2.2 (by decide)

/-- C5: the Previous transition yields `max(i-1, 0)` and the Next transition
yields `min(i+1, N-1)`; both are total functions and are idempotent at
the boundary indices. -/
theorem wizard_boundary_clamp (i : Int) (h0 : 0 ≤ i)
    (hN : i ≤ (WIZARD_STEPS.length : Int) - 1) :
    wizard_previous i = max (i - 1) 0 ∧
    wizard_next i = min (i + 1) ((WIZARD_STEPS.length : Int) - 1) ∧
    (i = 0 → wizard_previous i = i) ∧
    (i = (WIZARD_STEPS.length : Int) - 1 → wizard_next i = i) := by
  have h5 : (WIZARD_STEPS.length : Int) = 5 := by norm_num [WIZARD_STEPS]
  refine ⟨rfl, rfl, ?_, ?_⟩
  · rintro rfl
    rw [wizard_previous]
    omega
  · intro hlast
    rw [wizard_next, h5] at *
    omega

/-- Witness for C5: Previous at index 0 stays at 0 and Next at the last
index (4) stays at 4. -/
theorem wizard_boundary_clamp_witness :
    wizard_previous 0 = 0 ∧ wizard_next 4 = 4 := by
  constructor
  · exact (wizard_boundary_clamp 0 (by decide) (by decide)).2.2.1 rfl
  · exact (wizard_boundary_clamp 4 (by decide) (by decide)).2.2.2 (by decide)

/-- C6: the wizard step index is initialised to 0 at login, 0 is a valid
index into the five-step list, and both transitions map any valid index
to a valid index. -/
theorem wizard_index_always_valid (s : SessionState) (passcode user_name new_uuid : String)
    (i : Int) (hi : 0 ≤ i ∧ i < (WIZARD_STEPS.length : Int)) :
    (passcode = PASSCODE → (login_page s passcode user_name new_uuid).current_step = 0) ∧
    ((0 : Int) ≤ 0 ∧ (0 : Int) < (WIZARD_STEPS.length : Int)) ∧
    (0 ≤ wizard_previous i ∧ wizard_previous i < (WIZARD_STEPS.length : Int)) ∧
    (0 ≤ wizard_next i ∧ wizard_next i < (WIZARD_STEPS.length : Int)) ∧
    WIZARD_STEPS.length = 5 := by
  have h5 : (WIZARD_STEPS.length : Int) = 5 := by norm_num [WIZARD_STEPS]
  obtain ⟨hi0, hiN⟩ := hi
  rw [h5] at hiN
  refine ⟨?_, ?_, ?_, ?_, rfl⟩
  · intro hpc
    simp [login_page, hpc]
  · rw [h5]
    norm_num
  · rw [wizard_previous, h5]
    omega
  · rw [wizard_next, h5]
    omega

/-- Witness for C6: at a concrete session and the interior index 3, login
puts the index at 0 and both transitions stay within bounds. -/
theorem wizard_index_always_valid_witness :
    (login_page sampleSession "DECODE" "Ada" "uuid-1").current_step = 0 ∧
    (0 ≤ wizard_previous 3 ∧ wizard_previous 3 < (WIZARD_STEPS.length : Int)) ∧
    (0 ≤ wizard_next 3 ∧ wizard_next 3 < (WIZARD_STEPS.length : Int)) := by
  have h := wizard_index_always_valid sampleSession "DECODE" "Ada" "uuid-1" 3 (by decide)
  exact ⟨h.1 (by decide), h.2.2.1, h.2.2.2.1⟩

/-- C7: a session created at login with a blank or whitespace-only display
name gets the literal name Anonymous, and a name with content is stored
stripped of surrounding whitespace. -/
theorem login_name_normalization (s : SessionState) (passcode user_name new_uuid : String)
    (hpc : passcode = PASSCODE) :
    ((∀ c ∈ user_name.data, pyIsSpace c = true) →
      (login_page s passcode user_name new_uuid).user_name = "Anonymous") ∧
    ((¬ ∀ c ∈ user_name.data, pyIsSpace c = true) →
      (login_page s passcode user_name new_uuid).user_name = pyStrip user_name) := by
  constructor
  · intro h
    have he : pyStrip user_name = "" := (pyStrip_eq_empty_iff _).mpr h
    simp [login_page, hpc, he]
  · intro h
    have hne : pyStrip user_name ≠ "" := fun hc => h ((pyStrip_eq_empty_iff _).mp hc)
    simp [login_page, hpc, hne]

/-- Witness for C7: logging in with a whitespace name yields Anonymous and
logging in with a padded name yields the trimmed name. -/
theorem login_name_normalization_witness :
    (login_page sampleSession "DECODE" "  \t " "uuid-1").user_name = "Anonymous" ∧
    (login_page sampleSession "DECODE" "  Ada  " "uuid-2").user_name = pyStrip "  Ada  " ∧
    pyStrip "  Ada  " = "Ada" := by
  refine ⟨?_, ?_, by decide⟩
  · exact (login_name_normalization sampleSession "DECODE" "  \t " "uuid-1" rfl).1 (by decide)
  · exact (login_name_normalization sampleSession "DECODE" "  Ada  " "uuid-2" rfl).2 (by decide)

/-- C2: for a non-empty section key, `get_feedback` returns exactly the
stored records whose step and section equal the query (as presented
rows), ordered by `created_at` ascending with ties among equal
timestamps broken by insertion (id) order, provided the table is scanned
in id order as SQLite does. -/
theorem get_feedback_matches_and_ordered (db : FeedbackDB) (step sect : String)
    (hsect : sect ≠ "") (hids : db.rows.Pairwise idOrder) :
    (∀ r ∈ get_feedback db step (some sect), r.step = step ∧ r.sect = sect) ∧
    (get_feedback db step (some sect)).Perm
      ((db.rows.filter (fun r => r.step = step ∧ r.sect = sect)).map presentRow) ∧
    (get_feedback db step (some sect)).Pairwise chronOrder := by
  have hdef : get_feedback db step (some sect) =
      (orderByCreatedAt (db.rows.filter (fun r => r.step = step ∧ r.sect = sect))).map
        presentRow := by
    simp [get_feedback, hsect]
  refine ⟨?_, ?_, ?_⟩
  · intro r hr
    rw [hdef] at hr
    rcases List.mem_map.mp hr with ⟨r₀, hr₀, rfl⟩
    have h1 : r₀ ∈ db.rows.filter (fun r => r.step = step ∧ r.sect = sect) :=
      (orderByCreatedAt_perm _).mem_iff.mp hr₀
    have h3 : r₀.step = step ∧ r₀.sect = sect := by simpa using List.of_mem_filter h1
    exact ⟨by simp [presentRow, h3.1], by simp [presentRow, h3.2]⟩
  · rw [hdef]
    exact ((orderByCreatedAt_perm _).map presentRow)
  · rw [hdef]
    refine List.Pairwise.map presentRow ?_
      (orderByCreatedAt_pairwise _ (hids.filter _))
    intro a b hab
    simpa [presentRow, chronOrder] using hab

/-- Witness for C2 on the concrete store: the two Introduction records tie
on `created_at` and come back in id order, each matching the query. -/
theorem get_feedback_matches_and_ordered_witness :
    (∀ r ∈ get_feedback sampleDB "Introduction" (some "GeneralIntro"),
      r.step = "Introduction" ∧ r.sect = "GeneralIntro") ∧
    (get_feedback sampleDB "Introduction" (some "GeneralIntro")).Pairwise chronOrder ∧
    get_feedback sampleDB "Introduction" (some "GeneralIntro") =
      [presentRow rowA, presentRow rowB] := by
  have h := get_feedback_matches_and_ordered sampleDB "Introduction" "GeneralIntro"
    (by decide) (by decide)
  exact ⟨h.1, h.2.2, by decide⟩

/-- C9: passing the empty string as the section filter behaves exactly like
passing no section at all, returning the presented rows of every section
under the step rather than only rows whose stored section is empty. -/
theorem get_feedback_blank_section (db : FeedbackDB) (step : String) :
    get_feedback db step (some "") = get_feedback db step none ∧
    ∀ r ∈ db.rows, r.step = step → presentRow r ∈ get_feedback db step (some "") := by
  constructor
  · simp [get_feedback]
  · intro r hr hstep
    have h1 : r ∈ db.rows.filter (fun r => r.step = step) :=
      List.mem_filter.mpr ⟨hr, by simpa using hstep⟩
    have h2 : r ∈ orderByCreatedAt (db.rows.filter (fun r => r.step = step)) :=
      (orderByCreatedAt_perm _).mem_iff.mpr h1
    have h3 : presentRow r ∈
        (orderByCreatedAt (db.rows.filter (fun r => r.step = step))).map presentRow :=
      List.mem_map_of_mem presentRow h2
    simpa [get_feedback] using h3

/-- Witness for C9 on the concrete store: record 3 lives in section
OverallFinal yet is returned for the empty-string section query, which
coincides with the section-less query. -/
theorem get_feedback_blank_section_witness :
    get_feedback sampleDB "Final Comments" (some "") =
      get_feedback sampleDB "Final Comments" none ∧
    presentRow rowC ∈ get_feedback sampleDB "Final Comments" (some "") ∧
    rowC.sect = "OverallFinal" := by
  have h := get_feedback_blank_section sampleDB "Final Comments"
  exact ⟨h.1, h.2 rowC (by decide) (by decide), by decide⟩

set_option maxHeartbeats 1000000 in
theorem validChildTriples_keys_nodup : (validChildTriples.map tripleKey).Nodup := by
  decide

/-- C3: section-key derivation is a function of the selection (equal
selections give equal keys), the Child-Attributes key is the three-part
delimiter-joined string, and any two distinct selections offered by the
step derive distinct keys. -/
theorem section_key_deterministic_and_injective :
    (∀ t₁ t₂ : String × String × String, t₁ = t₂ → tripleKey t₁ = tripleKey t₂) ∧
    (∀ c a ch : String, child_section_label c a ch = c ++ " | " ++ a ++ " | " ++ ch) ∧
    (∀ t₁ ∈ validChildTriples, ∀ t₂ ∈ validChildTriples,
      t₁ ≠ t₂ → tripleKey t₁ ≠ tripleKey t₂) := by
  refine ⟨fun t₁ t₂ h => by rw [h], fun c a ch => rfl, ?_⟩
  intro t₁ h₁ t₂ h₂ hne heq
  exact hne (List.inj_on_of_nodup_map validChildTriples_keys_nodup h₁ h₂ heq)

set_option maxHeartbeats 1000000 in
/-- Witness for C3: two offered selections differing only in the category
derive different keys even though attribute and child coincide. -/
theorem section_key_deterministic_and_injective_witness :
    tripleKey ("Characterization", "Integration Complexity", "Setup Time") ≠
      tripleKey ("Testing", "Integration Complexity", "Setup Time") ∧
    tripleKey ("Simulations", "Maturity", "Validation Level") =
      "Simulations | Maturity | Validation Level" := by
  constructor
  · exact section_key_deterministic_and_injective.2.2
      ("Characterization", "Integration Complexity", "Setup Time") (by decide)
      ("Testing", "Integration Complexity", "Setup Time") (by decide) (by decide)
  · decide

/-- C8: when a (category, parent attribute) pair has no child attributes in
the dictionary, the selection degenerates to the literal General with
empty description and scoring text, and the derived key is still the
well-formed three-part string ending in General; no error is produced. -/
theorem child_attrs_missing_degenerates (cat_choice attr_choice user_pick : String)
    (h : childAttrsFor cat_choice attr_choice = []) :
    step_child_selection cat_choice attr_choice user_pick = ("General", "", "") ∧
    child_section_label cat_choice attr_choice
        (step_child_selection cat_choice attr_choice user_pick).1 =
      cat_choice ++ " | " ++ attr_choice ++ " | " ++ "General" := by
  have h1 : step_child_selection cat_choice attr_choice user_pick = ("General", "", "") := by
    simp [step_child_selection, h]
  refine ⟨h1, ?_⟩
  rw [h1]
  rfl

/-- Witness for C8: a pair absent from the dictionary degenerates to
General and still yields the three-part key. -/
theorem child_attrs_missing_degenerates_witness :
    step_child_selection "Hydrogen" "Maturity" "Whatever" = ("General", "", "") ∧
    child_section_label "Hydrogen" "Maturity"
        (step_child_selection "Hydrogen" "Maturity" "Whatever").1 =
      "Hydrogen | Maturity | General" := by
  have h := child_attrs_missing_degenerates "Hydrogen" "Maturity" "Whatever" (by decide)
  exact ⟨h.1, h.2⟩

end IRL
